import Mathlib

/-!
Shallow embedding of src/build/build.py (VizPsyche book build system).

The script is a CLI wrapper around the pandoc converter.  We model:
  - the filesystem as a list of existing paths (directories and files are
    not distinguished; shutil.rmtree removes a path and everything below
    it, shutil.copytree mirrors a subtree, Path.mkdir with exist_ok=True
    and without parents=True creates one directory only and raises
    FileNotFoundError when the parent is absent);
  - yaml.safe_load's result as a Yaml value: a mapping carrying the two
    keys the script reads, the empty document (None), or any non-mapping
    value, on which dict-style .get raises AttributeError;
  - each subprocess invocation by its outcome: success, CalledProcessError
    (non-zero exit under check=True), or FileNotFoundError (executable
    absent at invocation time);
  - uncaught Python exceptions as an Except error;
  - printed diagnostics as lists of strings and the control flow of main
    as an event trace, so that ordering facts (what ran before what) are
    statements about the trace.
Wall-clock timing interpolated into success messages and the textual
rendering of caught exception objects are not modelled; messages keep
their fixed prefixes.  Chapter contents are irrelevant to the script and
are not modelled; builders receive the resolved path list but pandoc does
the conversion work, which is outside this program.
-/

namespace VizBuild

/-- Uncaught Python exceptions that the script can raise. -/
inductive PyExn
  | fileNotFoundError
  | attributeError
deriving DecidableEq

/-- Outcome of one subprocess.run invocation with check=True. -/
inductive RunOutcome
  | success
  | calledProcessError
  | fileNotFound
deriving DecidableEq

/-- Outcome of querying pandoc --version in check_pandoc. -/
inductive PandocStatus
  | found (version : String)
  | calledProcessError
  | fileNotFound
deriving DecidableEq

/-- Result of yaml.safe_load on chapters.yaml, restricted to the two keys
the script reads.  mapping models a YAML mapping where each key is either
present with a string-list value or absent; null models the empty
document (Python None); nonMapping models any other top-level value
(list, string, number, ...), on which .get raises AttributeError. -/
inductive Yaml
  | null
  | mapping (chapters : Option (List String)) (appendices : Option (List String))
  | nonMapping
deriving DecidableEq

/-- The filesystem as the set (list) of existing paths. -/
structure FS where
  paths : List String
deriving DecidableEq

/-- Path constants of the script, with DOCS_DIR fixed to "docs". -/
def DOCS_DIR_s : String := "docs"

def DIST_DIR_s : String := DOCS_DIR_s ++ "/dist"

def htmlDirS : String := DIST_DIR_s ++ "/html"

def imagesSrcS : String := DOCS_DIR_s ++ "/images"

def imagesDstS : String := htmlDirS ++ "/images"

/-- Path existence test (Path.exists). -/
def FS.existsPath (fs : FS) (p : String) : Bool :=
  fs.paths.contains p

/-- shutil.rmtree: removes the path and everything strictly below it. -/
def FS.rmtree (fs : FS) (base : String) : FS :=
  ⟨fs.paths.filter (fun p => !(p == base || p.startsWith (base ++ "/")))⟩

/-- shutil.copytree src dst: creates dst and mirrors every path below src
below dst (the code removes dst first, so dst is absent when called). -/
def FS.copytree (fs : FS) (src dst : String) : FS :=
  ⟨fs.paths ++ dst :: fs.paths.filterMap (fun p =>
      if p.startsWith (src ++ "/") then some (dst ++ p.drop src.length) else none)⟩

/-- Path.mkdir with exist_ok=True and parents=False: no-op when the path
exists, creates it when the parent exists, otherwise raises
FileNotFoundError. -/
def mkdirExistOk (fs : FS) (p parent : String) : Except PyExn FS :=
  if fs.existsPath p then .ok fs
  else if fs.existsPath parent then .ok ⟨p :: fs.paths⟩
  else .error .fileNotFoundError

/-- load_chapters: yaml.safe_load the manifest, then
config.get("chapters", []) + config.get("appendices", []).  On None or a
non-mapping document, .get raises AttributeError. -/
def load_chapters (doc : Yaml) : Except PyExn (List String) :=
  match doc with
  | .mapping ch ap => .ok (ch.getD [] ++ ap.getD [])
  | _ => .error .attributeError

/-- DOCS_DIR / chapter. -/
def joinDocs (c : String) : String := DOCS_DIR_s ++ "/" ++ c

/-- The warning printed for a missing chapter. -/
def warnMissing (c : String) : String := "Warning: Chapter not found: " ++ c

/-- get_chapter_paths: join each name to DOCS_DIR, keep it when it exists,
otherwise record a warning.  Returns (paths, warnings). -/
def get_chapter_paths (fs : FS) : List String → List String × List String
  | [] => ([], [])
  | c :: rest =>
    let r := get_chapter_paths fs rest
    if fs.existsPath (joinDocs c) then (joinDocs c :: r.1, r.2)
    else (r.1, warnMissing c :: r.2)

/-- ensure_dist_dir: DIST_DIR.mkdir(exist_ok=True).  Note parents=True is
not passed, so a missing parent raises FileNotFoundError. -/
def ensure_dist_dir (fs : FS) : Except PyExn FS :=
  mkdirExistOk fs DIST_DIR_s DOCS_DIR_s

/-- check_pandoc: run pandoc --version; print the version line and return
true on success, print an install hint and return false when the
executable is missing or exits non-zero. -/
def check_pandoc (st : PandocStatus) : Bool × List String :=
  match st with
  | .found v => (true, ["[OK] Found " ++ v])
  | _ => (false, ["[ERROR] Pandoc not found. Please install: https://pandoc.org/installing.html"])

/-- clean: remove DIST_DIR when it exists, otherwise report already clean.
Returns the filesystem afterwards and the printed messages. -/
def clean (fs : FS) : FS × List String :=
  if fs.existsPath DIST_DIR_s then
    (fs.rmtree DIST_DIR_s, ["[CLEAN] Cleaning dist/...", "[OK] Removed dist/"])
  else
    (fs, ["[CLEAN] Cleaning dist/...", "[OK] dist/ already clean"])

/-- The three output formats. -/
inductive Format
  | pdf
  | html
  | epub
deriving DecidableEq

/-- Filesystem-affecting steps a builder performs, in order. -/
inductive FsOp
  | mkdirHtmlDir
  | rmtreeImagesDst
  | copytreeImages
  | runPandoc (f : Format)
deriving DecidableEq

/-- One builder invocation: the filesystem ops it performed in order, the
messages it printed, the filesystem afterwards, and its result: ok b for
a boolean return, error e for an uncaught exception. -/
structure BuilderRun where
  ops : List FsOp
  msgs : List String
  fs : FS
  result : Except PyExn Bool

/-- build_pdf: run pandoc over the chapters.  Catches both
CalledProcessError (returns false with a build-failed message) and
FileNotFoundError (returns false with a xelatex install hint). -/
def build_pdf (fs : FS) (outcome : RunOutcome) : BuilderRun :=
  { ops := [.runPandoc .pdf]
    fs := fs
    msgs := "[PDF] Building..." ::
      (match outcome with
       | .success => ["[OK] PDF generated: dist/vizpsyche-book.pdf"]
       | .calledProcessError => ["[ERROR] PDF build failed"]
       | .fileNotFound => ["[ERROR] xelatex not found. Please install TeX Live or MiKTeX."])
    result := match outcome with
      | .success => .ok true
      | .calledProcessError => .ok false
      | .fileNotFound => .ok false }

/-- build_html: mkdir the html output dir (exist_ok, parent DIST_DIR),
copy the images tree when DOCS_DIR/images exists (removing a prior copy
first), then run pandoc.  Only CalledProcessError is caught; a
FileNotFoundError from the invocation propagates uncaught. -/
def build_html (fs : FS) (outcome : RunOutcome) : BuilderRun :=
  match mkdirExistOk fs htmlDirS DIST_DIR_s with
  | .error e => { ops := [], msgs := ["[HTML] Building..."], fs := fs, result := .error e }
  | .ok fs1 =>
    let srcEx := fs1.existsPath imagesSrcS
    let dstEx := fs1.existsPath imagesDstS
    let fs2 :=
      if srcEx then
        (if dstEx then fs1.rmtree imagesDstS else fs1).copytree imagesSrcS imagesDstS
      else fs1
    let copyOps : List FsOp :=
      if srcEx then (if dstEx then [.rmtreeImagesDst] else []) ++ [.copytreeImages] else []
    { ops := FsOp.mkdirHtmlDir :: copyOps ++ [FsOp.runPandoc .html]
      msgs := "[HTML] Building..." ::
        (match outcome with
         | .success => ["[OK] HTML generated: dist/html/index.html"]
         | .calledProcessError => ["[ERROR] HTML build failed"]
         | .fileNotFound => [])
      fs := fs2
      result := match outcome with
        | .success => .ok true
        | .calledProcessError => .ok false
        | .fileNotFound => .error .fileNotFoundError }

/-- build_epub: run pandoc over the chapters.  Only CalledProcessError is
caught; a FileNotFoundError from the invocation propagates uncaught. -/
def build_epub (fs : FS) (outcome : RunOutcome) : BuilderRun :=
  { ops := [.runPandoc .epub]
    fs := fs
    msgs := "[EPUB] Building..." ::
      (match outcome with
       | .success => ["[OK] EPUB generated: dist/vizpsyche-book.epub"]
       | .calledProcessError => ["[ERROR] EPUB build failed"]
       | .fileNotFound => [])
    result := match outcome with
      | .success => .ok true
      | .calledProcessError => .ok false
      | .fileNotFound => .error .fileNotFoundError }

/-- CLI commands accepted by the argument parser. -/
inductive Command
  | pdf
  | html
  | epub
  | all
  | clean
deriving DecidableEq

/-- Control-flow events of one run of main, in order. -/
inductive Event
  | envCheck (ok : Bool)
  | manifestLoad
  | pathResolve
  | ensureDist
  | builderRun (f : Format) (succeeded : Bool)
  | cleanRun
deriving DecidableEq

/-- Result of a completed run of main: the process exit code, the event
trace, the filesystem afterwards, and the printed messages. -/
structure MainResult where
  exitCode : Nat
  events : List Event
  fs : FS
  msgs : List String

/-- Whether a command requests a given format, mirroring the three
membership tests in main (args.command in ("pdf", "all") and so on). -/
def runsFormat (cmd : Command) : Format → Bool
  | .pdf => cmd == .pdf || cmd == .all
  | .html => cmd == .html || cmd == .all
  | .epub => cmd == .epub || cmd == .all

/-- One of the three builder blocks in main: when the command requests the
format, run the builder and fold its boolean into the running success
flag (success = build_X(...) and success); an uncaught exception aborts
the whole run. -/
def stepBuilder (cmd : Command) (f : Format) (run : FS → BuilderRun)
    (st : Bool × FS × List String × List Event) :
    Except PyExn (Bool × FS × List String × List Event) :=
  if runsFormat cmd f then
    let r := run st.2.1
    match r.result with
    | .error e => .error e
    | .ok b => .ok (b && st.1, r.fs, st.2.2.1 ++ r.msgs, st.2.2.2 ++ [.builderRun f b])
  else .ok st

/-- The inputs one run of main depends on. -/
structure World where
  fs : FS
  manifest : Yaml
  pandoc : PandocStatus
  pdfOutcome : RunOutcome
  htmlOutcome : RunOutcome
  epubOutcome : RunOutcome

/-- main: dispatch on the command.  clean short-circuits with exit 0;
build commands run check_pandoc (exit 1 on failure), load_chapters,
get_chapter_paths (exit 1 when the resolved list is empty),
ensure_dist_dir, then the requested builders, exiting 1 when any
requested builder returned false.  An uncaught exception is error e. -/
def main (cmd : Command) (w : World) : Except PyExn MainResult :=
  if cmd == .clean then
    let r := clean w.fs
    .ok ⟨0, [.cleanRun], r.1, r.2⟩
  else
    let pc := check_pandoc w.pandoc
    if !pc.1 then .ok ⟨1, [.envCheck false], w.fs, pc.2⟩
    else
      match load_chapters w.manifest with
      | .error e => .error e
      | .ok chs =>
        let r := get_chapter_paths w.fs chs
        if r.1.isEmpty then
          .ok ⟨1, [.envCheck true, .manifestLoad, .pathResolve], w.fs,
               pc.2 ++ r.2 ++ ["[ERROR] No chapters found!"]⟩
        else
          match ensure_dist_dir w.fs with
          | .error e => .error e
          | .ok fs1 =>
            let evs : List Event := [.envCheck true, .manifestLoad, .pathResolve, .ensureDist]
            match stepBuilder cmd .pdf (fun fs => build_pdf fs w.pdfOutcome)
                (true, fs1, pc.2 ++ r.2, evs) with
            | .error e => .error e
            | .ok st1 =>
              match stepBuilder cmd .html (fun fs => build_html fs w.htmlOutcome) st1 with
              | .error e => .error e
              | .ok st2 =>
                match stepBuilder cmd .epub (fun fs => build_epub fs w.epubOutcome) st2 with
                | .error e => .error e
                | .ok st3 =>
                  .ok ⟨if st3.1 then 0 else 1, st3.2.2.2, st3.2.1,
                       st3.2.2.1 ++
                        [if st3.1 then "[OK] Build complete!"
                         else "[ERROR] Build completed with errors"]⟩

/-- The boolean a caught builder invocation returns for a given subprocess
outcome: true exactly on success. -/
def succOf : RunOutcome → Bool
  | .success => true
  | _ => false

/-- Sample filesystem with one chapter present, used to instantiate
universally quantified theorems at a concrete input. -/
def fsSample : FS := ⟨["docs", "docs/ch1.md"]⟩

/-- Sample filesystem with chapter, dist, html dir, a source images tree
and a stale prior images copy. -/
def fsImages : FS :=
  ⟨["docs", "docs/ch1.md", "docs/dist", "docs/images", "docs/images/a.png",
    "docs/dist/html", "docs/dist/html/images", "docs/dist/html/images/old.png"]⟩

/-- Sample world in which every build succeeds. -/
def wOk : World :=
  ⟨fsSample, .mapping (some ["ch1.md"]) none, .found "pandoc 3.1.2",
   .success, .success, .success⟩

/-- Sample world in which pandoc is missing. -/
def wNoPandoc : World :=
  ⟨fsSample, .mapping (some ["ch1.md"]) none, .fileNotFound,
   .success, .success, .success⟩

/-- Sample world whose single listed chapter does not exist on disk. -/
def wNoChapters : World :=
  ⟨⟨["docs"]⟩, .mapping (some ["ch1.md"]) none, .found "pandoc 3.1.2",
   .success, .success, .success⟩

/-! Helper lemmas -/

/-- After rmtree base, base itself no longer exists. -/
theorem existsPath_rmtree_self (fs : FS) (base : String) :
    (fs.rmtree base).existsPath base = false := by
  simp [FS.rmtree, FS.existsPath, List.elem_eq_mem, List.mem_filter, List.contains]

/-- Path existence on a freshly extended filesystem. -/
theorem existsPath_cons (l : List String) (p q : String) :
    FS.existsPath ⟨p :: l⟩ q = (q == p || FS.existsPath ⟨l⟩ q) := by
  simp [FS.existsPath, List.contains, List.elem]
  split <;> simp_all

/-- mkdirExistOk leaves every other path's existence unchanged. -/
theorem existsPath_after_mkdir (fs fs1 : FS) (p parent q : String)
    (h : mkdirExistOk fs p parent = .ok fs1) (hne : q ≠ p) :
    fs1.existsPath q = fs.existsPath q := by
  unfold mkdirExistOk at h
  split at h
  · cases h; rfl
  · split at h
    · cases h
      rw [existsPath_cons]
      have : (q == p) = false := by simp [hne]
      simp [this]
    · cases h

/-- When the parent exists, ensure_dist_dir succeeds, DIST_DIR exists
afterwards, existing paths are preserved, and a second call is a no-op. -/
theorem ensure_spec (fs : FS) (h : fs.existsPath DOCS_DIR_s = true) :
    ∃ fs1, ensure_dist_dir fs = .ok fs1 ∧ fs1.existsPath DIST_DIR_s = true ∧
      (∀ p, fs.existsPath p = true → fs1.existsPath p = true) ∧
      ensure_dist_dir fs1 = .ok fs1 := by
  unfold ensure_dist_dir mkdirExistOk
  cases hd : fs.existsPath DIST_DIR_s with
  | true => exact ⟨fs, by simp [hd], hd, fun p hp => hp, by simp [hd]⟩
  | false =>
    refine ⟨⟨DIST_DIR_s :: fs.paths⟩, by simp [hd, h], ?_, ?_, ?_⟩
    · simp [existsPath_cons]
    · intro p hp
      rw [existsPath_cons]
      cases fs with
      | mk l => simp [hp]
    · have hd1 : FS.existsPath ⟨DIST_DIR_s :: fs.paths⟩ DIST_DIR_s = true := by
        simp [existsPath_cons]
      simp [hd1]

/-- When DIST_DIR exists, build_html's mkdir succeeds and the result is
determined by the subprocess outcome alone. -/
theorem build_html_result_of_dist (fs : FS) (o : RunOutcome)
    (h : fs.existsPath DIST_DIR_s = true) :
    (build_html fs o).result =
      (match o with
       | .success => .ok true
       | .calledProcessError => .ok false
       | .fileNotFound => .error .fileNotFoundError) := by
  unfold build_html mkdirExistOk
  cases hh : fs.existsPath htmlDirS <;> simp [hh, h]

/-! Claim theorems -/

/-- C2: the manifest loader returns the chapters list concatenated with
the appendices list, in that order and preserving each list's internal
order; an absent key is treated as the empty list and the loader still
succeeds, with the missing key contributing nothing. -/
theorem load_chapters_concat (ch ap : List String) :
    load_chapters (.mapping (some ch) (some ap)) = .ok (ch ++ ap) ∧
    load_chapters (.mapping none (some ap)) = .ok ap ∧
    load_chapters (.mapping (some ch) none) = .ok ch ∧
    load_chapters (.mapping none none) = .ok ([] : List String) := by
  refine ⟨rfl, by simp [load_chapters], by simp [load_chapters], rfl⟩

/-- C3: the path resolver keeps exactly the names whose joined path
exists, joined to the document root and in input order; each missing name
produces one warning naming that chapter; kept paths plus warnings count
the whole input. -/
theorem get_chapter_paths_spec (fs : FS) (chs : List String) :
    (get_chapter_paths fs chs).1 =
      (chs.filter (fun c => fs.existsPath (joinDocs c))).map joinDocs ∧
    (get_chapter_paths fs chs).2 =
      (chs.filter (fun c => !fs.existsPath (joinDocs c))).map warnMissing ∧
    (get_chapter_paths fs chs).1.length + (get_chapter_paths fs chs).2.length
      = chs.length := by
  induction chs with
  | nil => exact ⟨rfl, rfl, rfl⟩
  | cons c t ih =>
    obtain ⟨ih1, ih2, ih3⟩ := ih
    cases h : fs.existsPath (joinDocs c)
    · exact ⟨by simp [get_chapter_paths, h, ih1],
             by simp [get_chapter_paths, h, ih2],
             by simp [get_chapter_paths, h]; omega⟩
    · exact ⟨by simp [get_chapter_paths, h, ih1],
             by simp [get_chapter_paths, h, ih2],
             by simp [get_chapter_paths, h]; omega⟩

/-- C10: on an empty YAML document (None) or a non-mapping document, the
manifest loader raises AttributeError instead of applying the empty-list
defaults; the defaults apply only to a mapping merely lacking the keys. -/
theorem load_chapters_nonmapping_raises :
    load_chapters .null = .error .attributeError ∧
    load_chapters .nonMapping = .error .attributeError ∧
    load_chapters (.mapping none none) = .ok ([] : List String) :=
  ⟨rfl, rfl, rfl⟩

/-- C7 counterexample: on a filesystem where the document root (the
parent of the destination) is absent, ensure_dist_dir raises
FileNotFoundError instead of creating the missing parent, because mkdir
is invoked without parents=True. -/
theorem ensure_dist_dir_missing_parent_raises :
    ensure_dist_dir ⟨[]⟩ = .error .fileNotFoundError := rfl

/-- C7 amended: the ensure operation is a no-op and never errors when the
directory already exists; when the directory is absent but its parent
exists it creates it and is idempotent; it does not create missing parent
directories. -/
theorem ensure_dist_dir_spec (fs : FS) :
    (fs.existsPath DIST_DIR_s = true → ensure_dist_dir fs = .ok fs) ∧
    (fs.existsPath DOCS_DIR_s = true →
      ∃ fs1, ensure_dist_dir fs = .ok fs1 ∧ fs1.existsPath DIST_DIR_s = true ∧
        ensure_dist_dir fs1 = .ok fs1) := by
  constructor
  · intro h
    simp [ensure_dist_dir, mkdirExistOk, h]
  · intro h
    obtain ⟨fs1, h1, h2, _, h4⟩ := ensure_spec fs h
    exact ⟨fs1, h1, h2, h4⟩

/-- C7 amended, witness: concrete instantiation on a filesystem holding
the document root and the dist directory. -/
theorem ensure_dist_dir_spec_witness :
    (FS.existsPath ⟨["docs", "docs/dist"]⟩ DIST_DIR_s = true →
      ensure_dist_dir ⟨["docs", "docs/dist"]⟩ = .ok ⟨["docs", "docs/dist"]⟩) ∧
    (FS.existsPath ⟨["docs", "docs/dist"]⟩ DOCS_DIR_s = true →
      ∃ fs1, ensure_dist_dir ⟨["docs", "docs/dist"]⟩ = .ok fs1 ∧
        fs1.existsPath DIST_DIR_s = true ∧ ensure_dist_dir fs1 = .ok fs1) :=
  ensure_dist_dir_spec ⟨["docs", "docs/dist"]⟩

/-- C8 counterexample: when the converter executable is missing at
invocation time, the HTML builder raises FileNotFoundError uncaught
instead of returning false (here on a filesystem where its mkdir step
succeeds, so the error comes from the subprocess invocation). -/
theorem build_html_file_not_found_uncaught :
    (build_html ⟨["docs", "docs/dist"]⟩ .fileNotFound).result
      = .error .fileNotFoundError := rfl

/-- C8 amended: only the PDF builder catches the file-not-found condition
at invocation time, printing a dedicated diagnostic and returning false;
the HTML and EPUB builders catch only non-zero-exit failures, so a
file-not-found fault propagates uncaught. -/
theorem builders_file_not_found (fs : FS) :
    (build_pdf fs .fileNotFound).result = .ok false ∧
    "[ERROR] xelatex not found. Please install TeX Live or MiKTeX."
      ∈ (build_pdf fs .fileNotFound).msgs ∧
    (build_html fs .fileNotFound).result = .error .fileNotFoundError ∧
    (build_epub fs .fileNotFound).result = .error .fileNotFoundError := by
  refine ⟨rfl, by simp [build_pdf], ?_, rfl⟩
  unfold build_html mkdirExistOk
  split
  · rename_i e heq
    split at heq
    · simp_all
    · split at heq <;> simp_all
  · simp

/-- C9: the HTML builder checks for the images directory under the
document root before invoking the converter; when present, a prior copy
in the HTML output directory is removed first and the source tree is then
copied, both before the converter runs; when absent, no removal or copy
happens and the existence of the output images path is unchanged. -/
theorem build_html_image_copy (fs : FS) (o : RunOutcome)
    (hdist : fs.existsPath DIST_DIR_s = true) :
    (build_html fs o).ops =
      FsOp.mkdirHtmlDir ::
        ((if fs.existsPath imagesSrcS then
            (if fs.existsPath imagesDstS then [FsOp.rmtreeImagesDst] else [])
              ++ [FsOp.copytreeImages]
          else []) ++ [FsOp.runPandoc .html]) ∧
    (fs.existsPath imagesSrcS = false →
      (build_html fs o).fs.existsPath imagesDstS = fs.existsPath imagesDstS) := by
  unfold build_html
  cases hmk : mkdirExistOk fs htmlDirS DIST_DIR_s with
  | error e =>
    exfalso
    unfold mkdirExistOk at hmk
    split at hmk
    · cases hmk
    · simp [hdist] at hmk
  | ok fs1 =>
    have hsrc := existsPath_after_mkdir fs fs1 htmlDirS DIST_DIR_s imagesSrcS hmk
      (by decide)
    have hdst := existsPath_after_mkdir fs fs1 htmlDirS DIST_DIR_s imagesDstS hmk
      (by decide)
    constructor
    · simp [hsrc, hdst]
    · intro h0
      simp [hsrc, h0, hdst]

/-- C9 witness: concrete instantiation on a filesystem holding the dist
directory, a source images tree and a stale prior copy. -/
theorem build_html_image_copy_witness :
    (build_html fsImages .success).ops =
      FsOp.mkdirHtmlDir ::
        ((if fsImages.existsPath imagesSrcS then
            (if fsImages.existsPath imagesDstS then [FsOp.rmtreeImagesDst] else [])
              ++ [FsOp.copytreeImages]
          else []) ++ [FsOp.runPandoc .html]) ∧
    (fsImages.existsPath imagesSrcS = false →
      (build_html fsImages .success).fs.existsPath imagesDstS
        = fsImages.existsPath imagesDstS) :=
  build_html_image_copy fsImages .success (by decide)

/-- C6: the clean command always exits 0; the output directory does not
exist afterwards; when it existed a removal message is printed, and when
it did not, nothing is deleted (the filesystem is unchanged) and an
already-clean message is printed. -/
theorem clean_always_succeeds (w : World) :
    ∃ r, main .clean w = .ok r ∧ r.exitCode = 0 ∧
      r.fs.existsPath DIST_DIR_s = false ∧
      (w.fs.existsPath DIST_DIR_s = true →
        r.msgs = ["[CLEAN] Cleaning dist/...", "[OK] Removed dist/"]) ∧
      (w.fs.existsPath DIST_DIR_s = false →
        r.fs = w.fs ∧
        r.msgs = ["[CLEAN] Cleaning dist/...", "[OK] dist/ already clean"]) := by
  refine ⟨⟨0, [.cleanRun], (clean w.fs).1, (clean w.fs).2⟩, rfl, rfl, ?_, ?_, ?_⟩
  · unfold clean
    cases hd : w.fs.existsPath DIST_DIR_s with
    | true => simp [existsPath_rmtree_self]
    | false => simp [hd]
  · intro h
    simp [clean, h]
  · intro h
    simp [clean, h]

/-- C6 witness: concrete instantiation on a world whose output directory
does not exist. -/
theorem clean_always_succeeds_witness :
    ∃ r, main .clean wOk = .ok r ∧ r.exitCode = 0 ∧
      r.fs.existsPath DIST_DIR_s = false ∧
      (wOk.fs.existsPath DIST_DIR_s = true →
        r.msgs = ["[CLEAN] Cleaning dist/...", "[OK] Removed dist/"]) ∧
      (wOk.fs.existsPath DIST_DIR_s = false →
        r.fs = wOk.fs ∧
        r.msgs = ["[CLEAN] Cleaning dist/...", "[OK] dist/ already clean"]) :=
  clean_always_succeeds wOk

/-- C5: when the environment check on the converter fails, every build
command exits 1 with only the failed check in its trace, hence before the
manifest is loaded; the clean command never performs the environment
check. -/
theorem pandoc_gate (cmd : Command) (w : World)
    (hc : cmd ≠ .clean)
    (hp : (check_pandoc w.pandoc).1 = false) :
    (∃ r, main cmd w = .ok r ∧ r.exitCode = 1 ∧ r.events = [.envCheck false] ∧
      Event.manifestLoad ∉ r.events) ∧
    (∀ w2 : World, ∃ r, main .clean w2 = .ok r ∧ r.events = [.cleanRun] ∧
      ∀ b, Event.envCheck b ∉ r.events) := by
  constructor
  · have hcc : (cmd == Command.clean) = false := by
      cases cmd <;> simp_all
    cases hst : w.pandoc with
    | found v => rw [hst] at hp; simp [check_pandoc] at hp
    | calledProcessError =>
      exact ⟨⟨1, [.envCheck false], w.fs, (check_pandoc w.pandoc).2⟩,
        by simp [main, hcc, hst, check_pandoc], rfl, rfl, by simp⟩
    | fileNotFound =>
      exact ⟨⟨1, [.envCheck false], w.fs, (check_pandoc w.pandoc).2⟩,
        by simp [main, hcc, hst, check_pandoc], rfl, rfl, by simp⟩
  · intro w2
    refine ⟨⟨0, [.cleanRun], (clean w2.fs).1, (clean w2.fs).2⟩, rfl, rfl, ?_⟩
    intro b
    simp

/-- C5 witness: concrete instantiation with the pdf command and a world
where the pandoc executable is missing. -/
theorem pandoc_gate_witness :
    (∃ r, main .pdf wNoPandoc = .ok r ∧ r.exitCode = 1 ∧
      r.events = [.envCheck false] ∧ Event.manifestLoad ∉ r.events) ∧
    (∀ w2 : World, ∃ r, main .clean w2 = .ok r ∧ r.events = [.cleanRun] ∧
      ∀ b, Event.envCheck b ∉ r.events) :=
  pandoc_gate .pdf wNoPandoc (by decide) rfl

/-- C4: for every build command, when the resolved chapter list is empty
the run exits 1 with an error message, the output directory is not
ensured, no builder runs, and the filesystem is unchanged. -/
theorem no_chapters_aborts (cmd : Command) (w : World) (v : String)
    (chs : List String)
    (hc : cmd ≠ .clean)
    (hp : w.pandoc = .found v)
    (hm : load_chapters w.manifest = .ok chs)
    (he : (get_chapter_paths w.fs chs).1 = []) :
    ∃ r, main cmd w = .ok r ∧ r.exitCode = 1 ∧ r.fs = w.fs ∧
      Event.ensureDist ∉ r.events ∧
      (∀ f b, Event.builderRun f b ∉ r.events) ∧
      "[ERROR] No chapters found!" ∈ r.msgs := by
  have hcc : (cmd == Command.clean) = false := by
    cases cmd <;> simp_all
  refine ⟨⟨1, [.envCheck true, .manifestLoad, .pathResolve], w.fs,
      (check_pandoc w.pandoc).2 ++ (get_chapter_paths w.fs chs).2
        ++ ["[ERROR] No chapters found!"]⟩, ?_, rfl, rfl, by simp, ?_, by simp⟩
  · simp [main, hcc, hp, check_pandoc, hm, he]
  · intro f b
    simp

/-- C4 witness: concrete instantiation with the pdf command and a world
whose single listed chapter is missing on disk. -/
theorem no_chapters_aborts_witness :
    ∃ r, main .pdf wNoChapters = .ok r ∧ r.exitCode = 1 ∧
      r.fs = wNoChapters.fs ∧
      Event.ensureDist ∉ r.events ∧
      (∀ f b, Event.builderRun f b ∉ r.events) ∧
      "[ERROR] No chapters found!" ∈ r.msgs :=
  no_chapters_aborts .pdf wNoChapters "pandoc 3.1.2" ["ch1.md"]
    (by decide) rfl rfl (by decide)

/-- C1: under the all command, once the run reaches the build phase every
one of the three builders is invoked regardless of earlier builders
returning false (the trace holds one builderRun event per format with
that builder's own boolean), and the exit code is 0 exactly when the
logical AND of the three booleans is true, else 1.  Requires the HTML and
EPUB subprocess outcomes not to be the uncaught file-not-found case, in
which the run aborts exceptionally rather than aggregating. -/
theorem all_command_runs_every_builder (w : World) (v : String)
    (chs : List String)
    (hp : w.pandoc = .found v)
    (hm : load_chapters w.manifest = .ok chs)
    (hne : (get_chapter_paths w.fs chs).1 ≠ [])
    (hdocs : w.fs.existsPath DOCS_DIR_s = true)
    (hh : w.htmlOutcome ≠ .fileNotFound)
    (he : w.epubOutcome ≠ .fileNotFound) :
    ∃ r, main .all w = .ok r ∧
      Event.builderRun .pdf (succOf w.pdfOutcome) ∈ r.events ∧
      Event.builderRun .html (succOf w.htmlOutcome) ∈ r.events ∧
      Event.builderRun .epub (succOf w.epubOutcome) ∈ r.events ∧
      r.exitCode =
        (if succOf w.pdfOutcome && succOf w.htmlOutcome && succOf w.epubOutcome
         then 0 else 1) := by
  obtain ⟨fs1, hens, hdist1, -, -⟩ := ensure_spec w.fs hdocs
  have hemp : (get_chapter_paths w.fs chs).1.isEmpty = false := by
    cases hE : (get_chapter_paths w.fs chs).1 with
    | nil => exact absurd hE hne
    | cons a t => simp [hE]
  have hrf : ∀ f, runsFormat Command.all f = true := by
    intro f
    cases f <;> rfl
  have hpdf : (build_pdf fs1 w.pdfOutcome).result = .ok (succOf w.pdfOutcome) := by
    cases hpo : w.pdfOutcome <;> rfl
  have hfsp : (build_pdf fs1 w.pdfOutcome).fs = fs1 := rfl
  have hhtml : (build_html fs1 w.htmlOutcome).result = .ok (succOf w.htmlOutcome) := by
    rw [build_html_result_of_dist fs1 w.htmlOutcome hdist1]
    cases hho : w.htmlOutcome with
    | success => rfl
    | calledProcessError => rfl
    | fileNotFound => exact absurd hho hh
  have hepub : ∀ fsx, (build_epub fsx w.epubOutcome).result
      = .ok (succOf w.epubOutcome) := by
    intro fsx
    cases heo : w.epubOutcome with
    | success => rfl
    | calledProcessError => rfl
    | fileNotFound => exact absurd heo he
  simp only [main, stepBuilder, hrf, hp, check_pandoc, hm, hemp, hens, hpdf,
    hfsp, hhtml, hepub]
  cases hsp : succOf w.pdfOutcome <;> cases hsh : succOf w.htmlOutcome <;>
    cases hse : succOf w.epubOutcome <;>
      simp [hhtml, hepub, hsp, hsh, hse]

/-- C1 witness: concrete instantiation on a world in which every builder
succeeds. -/
theorem all_command_runs_every_builder_witness :
    ∃ r, main .all wOk = .ok r ∧
      Event.builderRun .pdf (succOf wOk.pdfOutcome) ∈ r.events ∧
      Event.builderRun .html (succOf wOk.htmlOutcome) ∈ r.events ∧
      Event.builderRun .epub (succOf wOk.epubOutcome) ∈ r.events ∧
      r.exitCode =
        (if succOf wOk.pdfOutcome && succOf wOk.htmlOutcome
            && succOf wOk.epubOutcome
         then 0 else 1) :=
  all_command_runs_every_builder wOk "pandoc 3.1.2" ["ch1.md"]
    rfl rfl (by decide) (by decide) (by decide) (by decide)

end VizBuild
